import Mathlib

/-!
Verification of the camter-rn mobile shell: a shallow embedding of the
deep-link resolver (src/hooks/useDeepLink.ts), the WebView host container
(WebViewContainer, two generations), the bridge utilities
(src/utils/webviewBridge.ts) and the Kakao share service
(src/services/kakaoShareService.ts), together with theorems settling the
behavioural claims about them.

String operations mirror the JavaScript ones used by the source
(String.prototype.split with a one-character separator, includes,
startsWith, replace of a leading scheme, URLSearchParams parsing).  They
are implemented over the character list of a Lean String so that every
definition evaluates inside the kernel.
-/

/-- JavaScript `a.split(sep)` for a one-character separator: the list of
(possibly empty) segments between occurrences of `sep`. -/
def splitCh (sep : Char) : List Char → List (List Char)
  | [] => [[]]
  | c :: rest =>
    if c = sep then [] :: splitCh sep rest
    else
      match splitCh sep rest with
      | h :: t => (c :: h) :: t
      | [] => [[c]]

/-- Boolean list-prefix test (JavaScript `startsWith` on character lists). -/
def isPrefixL : List Char → List Char → Bool
  | [], _ => true
  | _ :: _, [] => false
  | a :: as, b :: bs => a = b && isPrefixL as bs

/-- JavaScript `s.includes(pat)` for a non-empty pattern. -/
def containsL (pat : List Char) : List Char → Bool
  | [] => isPrefixL pat []
  | c :: rest => isPrefixL pat (c :: rest) || containsL pat rest

/-- `s.includes(pat)` on Lean strings. -/
def containsStr (s pat : String) : Bool := containsL pat.data s.data

/-- `s.startsWith(pat)` on Lean strings. -/
def startsWithStr (s pat : String) : Bool := isPrefixL pat.data s.data

/-- Drop the first `n` characters of a string (used to model
`url.replace(scheme, "")` when `url.startsWith(scheme)` holds, which
removes exactly the leading occurrence). -/
def dropStr (s : String) (n : Nat) : String := String.mk (s.data.drop n)

/-- `s.split(sep)` on Lean strings, one-character separator. -/
def splitStr (s : String) (sep : Char) : List String :=
  (splitCh sep s.data).map String.mk

/-- Join segments with a separator string (JavaScript `Array.join`). -/
def joinWith (sep : String) : List String → String
  | [] => ""
  | [x] => x
  | x :: rest => x ++ sep ++ joinWith sep rest

/-- Value of a hexadecimal digit, if the character is one. -/
def hexVal (c : Char) : Option Nat :=
  if '0' ≤ c ∧ c ≤ '9' then some (c.toNat - 48)
  else if 'a' ≤ c ∧ c ≤ 'f' then some (c.toNat - 87)
  else if 'A' ≤ c ∧ c ≤ 'F' then some (c.toNat - 55)
  else none

/-- application/x-www-form-urlencoded decoding as performed by
`URLSearchParams`: "+" becomes a space and a valid "%hh" escape becomes the
character with that code.  Multi-byte UTF-8 escape sequences are decoded
code-unit by code-unit; the inputs considered in this development are
ASCII, where this agrees with JavaScript. -/
def formDecodeL : List Char → List Char
  | [] => []
  | '+' :: rest => ' ' :: formDecodeL rest
  | '%' :: a :: b :: rest =>
    match hexVal a, hexVal b with
    | some ha, some hb => Char.ofNat (16 * ha + hb) :: formDecodeL rest
    | _, _ => '%' :: formDecodeL (a :: b :: rest)
  | c :: rest => c :: formDecodeL rest

/-- Parse one `name=value` pair the way `URLSearchParams` does: the part
before the first "=" is the name, the rest (rejoined on "=") is the value,
and both sides are form-decoded. -/
def parsePair (pair : List Char) : String × String :=
  match splitCh '=' pair with
  | [] => ("", "")
  | n :: rest =>
    (String.mk (formDecodeL n),
     if rest = [] then ""
     else String.mk (formDecodeL (joinWith "=" (rest.map String.mk)).data))

/-- Parse a query string into (name, value) pairs, in order, skipping the
empty segments between consecutive "&" characters, as `URLSearchParams`
does. -/
def parsePairs (qs : String) : List (String × String) :=
  ((splitCh '&' qs.data).filter (fun p => p ≠ [])).map parsePair

/-- `searchParams.get(k)`: the value of the first pair named `k`. -/
def getFirstParam (pairs : List (String × String)) (k : String) : Option String :=
  (pairs.find? (fun p => p.1 = k)).map (fun p => p.2)

/-- The source writes `params.k = searchParams.get(k) || undefined`, so an
empty value behaves like an absent one. -/
def getParam (pairs : List (String × String)) (k : String) : Option String :=
  match getFirstParam pairs k with
  | some v => if v = "" then none else some v
  | none => none

/-- JavaScript truthiness of an optional string: absent and empty are both
falsy. -/
def jsTruthy : Option String → Bool
  | none => false
  | some s => s ≠ ""

/-- JavaScript `a || b` on optional strings, normalised so that the result
is `none` whenever the chosen value is absent or empty. -/
def jsOr (a b : Option String) : Option String :=
  match a with
  | some s => if s = "" then (match b with | some t => if t = "" then none else some t | none => none) else some s
  | none => match b with | some t => if t = "" then none else some t | none => none

/-! ## Deep Link Resolver (src/hooks/useDeepLink.ts) -/

/-- Query parameters recognised by the deep-link resolver. -/
structure DeepLinkParams where
  productId : Option String := none
  eventId : Option String := none
  programId : Option String := none
  postId : Option String := none
  reservationId : Option String := none
  screen : Option String := none
  code : Option String := none
  state : Option String := none
  error : Option String := none
deriving Repr, DecidableEq

/-- The fixed allow-list of URL schemes (SUPPORTED_SCHEMES). -/
def SUPPORTED_SCHEMES : List String :=
  ["camter://", "camterapp://", "camterguest://", "exp://"]

/-- Kakao JavaScript app key scheme (default key, environment override not
modelled). -/
def kakaoJsScheme : String := "kakaob0892b60f070bd0742c5cb6f792dac5d://"

/-- Kakao native app key scheme. -/
def kakaoNativeScheme : String := "kakao1a11067057bb6fcf187e925d406f9386://"

/-- parseUrlParams: split the URL at "?", parse the second segment with
URLSearchParams semantics, and extract each recognised parameter with
`get(k) || undefined`. -/
def parseUrlParams (url : String) : DeepLinkParams :=
  if containsStr url "?" then
    let queryString := (splitStr url '?').getD 1 ""
    let pairs := parsePairs queryString
    { productId := getParam pairs "productId"
      eventId := getParam pairs "eventId"
      programId := getParam pairs "programId"
      postId := getParam pairs "postId"
      reservationId := getParam pairs "reservationId"
      screen := getParam pairs "screen"
      code := getParam pairs "code"
      state := getParam pairs "state"
      error := getParam pairs "error" }
  else {}

/-- The scheme-stripping, host-removal and query-splitting pipeline of
convertToWebViewPath, up to the `basePath` local: strip a supported or
Kakao scheme, remove a leading host segment (a first "/"-segment that is
non-empty and contains no "="), and keep the part before the first "?". -/
def extractBasePath (url : String) : String :=
  let path :=
    match SUPPORTED_SCHEMES.find? (fun s => startsWithStr url s) with
    | some s => dropStr url s.data.length
    | none => ""
  let path :=
    if startsWithStr url kakaoJsScheme then dropStr url kakaoJsScheme.data.length
    else if startsWithStr url kakaoNativeScheme then dropStr url kakaoNativeScheme.data.length
    else path
  let path :=
    if containsStr path "/" then
      match splitStr path '/' with
      | [] => path
      | p0 :: rest =>
        if p0 ≠ "" && !containsStr p0 "=" then "/" ++ joinWith "/" rest else path
    else path
  (splitStr path '?').headD ""

/-- convertToWebViewPath: resolve a deep-link URL and its parsed parameters
to a WebView path.  Parameter precedence follows the if-chain of the
source: productId, eventId, programId, postId, reservationId, then the
OAuth code branch, then the bare base path. -/
def convertToWebViewPath (url : String) (params : DeepLinkParams) : Option String :=
  if url = "" then none
  else
    let basePath := extractBasePath url
    if jsTruthy params.productId then some ("/product/" ++ params.productId.getD "")
    else if jsTruthy params.eventId then some ("/event/" ++ params.eventId.getD "")
    else if jsTruthy params.programId then some ("/program/" ++ params.programId.getD "")
    else if jsTruthy params.postId then some ("/community/post/" ++ params.postId.getD "")
    else if jsTruthy params.reservationId then some ("/reservation-detail/" ++ params.reservationId.getD "")
    else if jsTruthy params.code then
      let oauthPath := if basePath = "" then "/oauth/callback" else basePath
      some (oauthPath ++ "?code=" ++ params.code.getD "" ++
        (if jsTruthy params.state then "&state=" ++ params.state.getD "" else ""))
    else some (if basePath = "" then "/" else basePath)

/-- `url.replace(/^[a-z]+:\/\//, "")`: drop a leading lowercase scheme
followed by "://", if the URL has one. -/
def stripSchemeRegex (url : String) : String :=
  let letters := url.data.takeWhile (fun c => 'a' ≤ c ∧ c ≤ 'z')
  if letters ≠ [] ∧ isPrefixL [':', '/', '/'] (url.data.drop letters.length) then
    String.mk (url.data.drop (letters.length + 3))
  else url

/-- isSupported check of processUrl: one of the fixed schemes or one of the
two Kakao schemes. -/
def isSupportedUrl (url : String) : Bool :=
  SUPPORTED_SCHEMES.any (fun s => startsWithStr url s) ||
  startsWithStr url kakaoJsScheme || startsWithStr url kakaoNativeScheme

/-- The deep-link result published through setDeepLinkResult. -/
structure DeepLinkResult where
  url : String
  path : String
  params : DeepLinkParams
  webViewPath : Option String
deriving Repr, DecidableEq

/-- Resolver state: the seen-set of already processed URLs
(processedUrls.current) and the last published result. -/
structure DeepLinkState where
  processed : List String
  result : Option DeepLinkResult
deriving Repr, DecidableEq

/-- processUrl: one URL submission.  Returns the new state and whether a
navigation result was published (setDeepLinkResult called).  The guards
appear in source order: the null/empty check, the seen-set check, the
insertion into the seen-set, and only then the supported-scheme check. -/
def processUrl (s : DeepLinkState) (url : String) : DeepLinkState × Bool :=
  if url = "" then (s, false)
  else if url ∈ s.processed then (s, false)
  else
    let s := { s with processed := url :: s.processed }
    if !isSupportedUrl url then (s, false)
    else
      let params := parseUrlParams url
      let webViewPath := convertToWebViewPath url params
      ({ s with result := some ⟨url, stripSchemeRegex url, params, webViewPath⟩ }, true)

/-! ## Bridge data model (src/utils/webviewBridge.ts) -/

/-- Image pick result returned by the expo-image-picker wrappers. -/
structure ImagePickerResult where
  base64 : String
  mimeType : String
  fileName : String
  path : String
deriving Repr, DecidableEq

/-- Permission status returned by checkPermission. -/
structure PermissionStatus where
  granted : Bool
  denied : Bool
  permanentlyDenied : Bool
  limited : Bool
deriving Repr, DecidableEq

/-- Action-specific payload slots read out of `message.data` by the two
handleMessage generations.  Each field models one property of the opaque
JavaScript object; an absent property is `none`. -/
structure DataPayload where
  permissionType : Option String := none
  type : Option String := none
  url : Option String := none
  fileName : Option String := none
  title : Option String := none
  message : Option String := none
  accessToken : Option String := none
  description : Option String := none
  imageUrl : Option String := none
  webUrl : Option String := none
  mobileWebUrl : Option String := none
  buttonTitle : Option String := none
deriving Repr, DecidableEq

/-- BridgeMessage: the parsed envelope received from web content.  The
current-generation handler also reads `accessToken` at the top level of
the message, hence the extra field. -/
structure BridgeMessage where
  type : Option String := none
  action : Option String := none
  requestId : Option String := none
  data : Option DataPayload := none
  source : Option String := none
  accessToken : Option String := none
deriving Repr, DecidableEq

/-- Payloads carried in the `data` slot of responses. -/
inductive RespData where
  | img (r : ImagePickerResult)
  | perm (p : PermissionStatus)
  | token (t : String)
  | useWebUI
  | share (success : Bool) (fallback : Bool)
deriving Repr, DecidableEq

/-- BridgeResponse as built by sendNativeResponse / sendFlutterResponse:
`data` is nulled on failure, `error` is absent on success and defaults to
"Unknown error" when empty or missing on failure. -/
structure BridgeResponse where
  requestId : String
  success : Bool
  data : Option RespData
  error : Option String
deriving Repr, DecidableEq

/-- Build a response the way sendNativeResponse and sendFlutterResponse
do: `data: success ? data : null` and
`error: success ? undefined : (error || "Unknown error")`. -/
def mkResponse (requestId : String) (success : Bool) (data : Option RespData)
    (error : Option String := none) : BridgeResponse :=
  { requestId := requestId
    success := success
    data := if success then data else none
    error := if success then none
             else some (match error with
                        | some e => if e = "" then "Unknown error" else e
                        | none => "Unknown error") }

/-- handleFlutterResponse (injected web-side handler): look the requestId
up in the pending-request table, and when present delete the entry and
settle the promise, resolving on success and rejecting on failure.  The
table is modelled by its key list; the returned flag is `some success`
when an entry was settled and `none` when the response was silently
discarded. -/
def handleFlutterResponse (table : List String) (resp : BridgeResponse) :
    List String × Option Bool :=
  if resp.requestId ∈ table then
    (table.erase resp.requestId, some resp.success)
  else (table, none)

/-! ## Host container state machine (WebViewContainer, current generation) -/

/-- Host container state: the AppState flag, the two WebView refs
(isWebViewLoaded, isWebViewInteractive), whether the WebView ref is
mounted, the message queue, and the scripts injected so far (in order). -/
structure ContainerState where
  appStateActive : Bool
  loaded : Bool
  interactive : Bool
  refPresent : Bool
  queue : List BridgeResponse
  injected : List BridgeResponse
deriving Repr, DecidableEq

/-- Events handled by the container: load start and end, an AppState
change, the 800ms foreground settle timer firing, a message arriving from
the web content (which marks the WebView loaded), and a bridge response
being sent. -/
inductive CEvent where
  | loadStart
  | loadEnd
  | appStateChange (nextActive : Bool)
  | settleTimer
  | messageArrived
  | sendResponse (r : BridgeResponse)
deriving Repr, DecidableEq

/-- processMessageQueue: when the WebView ref is mounted and the queue is
non-empty, inject every queued script in FIFO order and empty the queue. -/
def flushQueue (s : ContainerState) : ContainerState :=
  if s.refPresent ∧ s.queue ≠ [] then
    { s with injected := s.injected ++ s.queue, queue := [] }
  else s

/-- One container event step, following the source handlers:
onLoadStart clears both flags; onLoadEnd marks loaded and, when the app is
active, marks interactive and flushes the queue; a background AppState
change clears interactive; the settle timer marks interactive and flushes
only when the app is active and the WebView is loaded; a received message
marks loaded; sendNativeResponse injects immediately only when interactive
with a mounted ref and queues otherwise. -/
def cstep (s : ContainerState) : CEvent → ContainerState
  | .loadStart => { s with loaded := false, interactive := false }
  | .loadEnd =>
    let s := { s with loaded := true }
    if s.appStateActive then flushQueue { s with interactive := true } else s
  | .appStateChange nextActive =>
    let s := { s with appStateActive := nextActive }
    if nextActive then s else { s with interactive := false }
  | .settleTimer =>
    if s.appStateActive ∧ s.loaded then flushQueue { s with interactive := true } else s
  | .messageArrived => { s with loaded := true }
  | .sendResponse r =>
    if s.interactive ∧ s.refPresent then { s with injected := s.injected ++ [r] }
    else { s with queue := s.queue ++ [r] }

/-! ## WebView error classification (current-generation container) -/

/-- Effect of handleHttpError: `surfaced` is the payload passed to the
user-facing onError callback (handleHttpError never calls it), `oauthLog`
records the OAuth-callback diagnostic logging, `logged5xx` records the
console log of a server error. -/
structure HttpErrorEffect where
  surfaced : Option String
  oauthLog : Bool
  logged5xx : Bool
deriving Repr, DecidableEq

/-- handleHttpError: log OAuth-callback errors, ignore TossPayments 3-D
Secure URLs and backend OAuth authorize URLs entirely, and for the rest
log to the console only when the status code is at least 500.  No branch
invokes the onError callback. -/
def handleHttpError (url : String) (statusCode : Nat) : HttpErrorEffect :=
  let oauthLog := containsStr url "/oauth2/" && containsStr url "/callback"
  if containsStr url "ansimclick" || containsStr url "directLinkedOnlinePay" then
    ⟨none, oauthLog, false⟩
  else if containsStr url "/oauth2/" && containsStr url "/authorize" then
    ⟨none, oauthLog, false⟩
  else
    ⟨none, oauthLog, decide (500 ≤ statusCode)⟩

/-- handleError: swallow TossPayments 3-D Secure descriptions and pass
every other load-failure description to the onError callback. -/
def handleError (description : String) : Option String :=
  if containsStr description "ansimclick" || containsStr description "directLinkedOnlinePay" then
    none
  else some description

/-! ## Kakao SDK initialisation (src/services/kakaoShareService.ts) -/

/-- Outcomes of the external Kakao SDK calls awaited by initKakaoSDK. -/
structure KakaoEnv where
  initOutcome : Except String Unit
  keyHashOutcome : Except String String
  isAndroid : Bool

/-- Result of one initKakaoSDK call: the new value of the module-level
isKakaoInitialized flag, the returned boolean, and whether
initializeKakaoSDK was actually invoked. -/
structure KakaoResult where
  flag : Bool
  ret : Bool
  calledInit : Bool
deriving Repr, DecidableEq

/-- initKakaoSDK: return true immediately when the flag is already set;
otherwise initialise the SDK, set the flag, and on Android additionally
fetch the debug key hash before returning true; any exception in that try
block is caught and the call returns false. -/
def initKakaoSDK (isKakaoInitialized : Bool) (env : KakaoEnv) : KakaoResult :=
  if isKakaoInitialized then ⟨true, true, false⟩
  else
    match env.initOutcome with
    | .error _ => ⟨false, false, true⟩
    | .ok _ =>
      if env.isAndroid then
        match env.keyHashOutcome with
        | .error _ => ⟨true, false, true⟩
        | .ok _ => ⟨true, true, true⟩
      else ⟨true, true, true⟩

/-! ## Native operations awaited by the message handlers

The expo / platform primitives are external calls whose outcomes are
supplied by an environment record; an `Except` value throwing models a
rejected promise.  The in-repository wrappers around them
(pickImageFromCamera, pickImageFromGallery, pickImage, checkPermission,
showImagePickerActionSheet) are translated below; each of them catches
internally, so none of them ever rejects. -/

/-- Outcome of a launchCameraAsync / launchImageLibraryAsync call. -/
structure LaunchResult where
  canceled : Bool
  asset : Option (String × Option String × Option String)
deriving Repr, DecidableEq

/-- Which entry the user picks in the legacy action sheet. -/
inductive SheetChoice where
  | cancel
  | camera
  | gallery
deriving Repr, DecidableEq

/-- Environment of external-call outcomes for one message dispatch. -/
structure NativeEnv where
  now : Nat := 0
  cameraRequestPermission : Except String String := .ok "granted"
  cameraLaunch : Except String LaunchResult := .ok ⟨true, none⟩
  galleryRequestPermission : Except String String := .ok "granted"
  galleryLaunch : Except String LaunchResult := .ok ⟨true, none⟩
  cameraGetPermission : Except String String := .ok "granted"
  mediaGetPermission : Except String String := .ok "granted"
  fcmTokenOutcome : Except String (Option String) := .ok none
  canOpenURL : Except String Bool := .ok false
  shareShare : Except String Unit := .ok ()
  shareKakaoFeedOutcome : Except String Bool := .ok true
  sheetChoice : SheetChoice := .cancel

/-- Build an ImagePickerResult from a picked asset, following the source:
the file name is the last "/"-segment of the uri, with a timestamped
default when that segment is empty, and the mime type defaults to
image/jpeg. -/
def assetToResult (env : NativeEnv) (uri : String) (base64 mimeType : Option String) :
    ImagePickerResult :=
  let fileName := (splitStr uri '/').getLastD ""
  let fileName := if fileName = "" then "image_" ++ toString env.now ++ ".jpg" else fileName
  { base64 := base64.getD ""
    mimeType := mimeType.getD "image/jpeg"
    fileName := fileName
    path := uri }

/-- pickImageFromCamera: request permission, launch the camera, convert
the asset; permission denial, cancellation, a missing asset and any thrown
error all yield null (the whole body is wrapped in try/catch). -/
def pickImageFromCamera (env : NativeEnv) : Option ImagePickerResult :=
  match env.cameraRequestPermission with
  | .error _ => none
  | .ok status =>
    if status ≠ "granted" then none
    else
      match env.cameraLaunch with
      | .error _ => none
      | .ok r =>
        if r.canceled then none
        else
          match r.asset with
          | none => none
          | some (uri, b64, mime) => some (assetToResult env uri b64 mime)

/-- pickImageFromGallery: same shape as the camera variant over the media
library primitives. -/
def pickImageFromGallery (env : NativeEnv) : Option ImagePickerResult :=
  match env.galleryRequestPermission with
  | .error _ => none
  | .ok status =>
    if status ≠ "granted" then none
    else
      match env.galleryLaunch with
      | .error _ => none
      | .ok r =>
        if r.canceled then none
        else
          match r.asset with
          | none => none
          | some (uri, b64, mime) => some (assetToResult env uri b64 mime)

/-- pickImage: dispatch on the source argument; any value other than
"camera" selects the gallery branch, as in the source. -/
def pickImage (source : String) (env : NativeEnv) : Option ImagePickerResult :=
  if source = "camera" then pickImageFromCamera env else pickImageFromGallery env

/-- checkPermission: read the current permission for camera or media
library (any type other than "camera" reads the media library); a thrown
error is caught and reported as denied. -/
def checkPermission (permissionType : String) (env : NativeEnv) : PermissionStatus :=
  let statusE := if permissionType = "camera" then env.cameraGetPermission
                 else env.mediaGetPermission
  match statusE with
  | .error _ => ⟨false, true, false, false⟩
  | .ok status => ⟨status = "granted", status = "denied", status = "denied", false⟩

/-- Kinds of native image-picking UI that a dispatch can trigger. -/
inductive PickerKind where
  | camera
  | gallery
  | actionSheet
deriving Repr, DecidableEq

/-- Observable events of one message dispatch: a requestId-correlated
response script, a type-correlated legacy response script, a native picker
invocation, or an external platform side effect. -/
inductive NEvent where
  | resp (r : BridgeResponse)
  | typed (t : String) (payload : Option RespData)
  | invokePicker (k : PickerKind)
  | ext (tag : String)
deriving Repr, DecidableEq

/-- showImagePickerActionSheet (legacy container): present the platform
action sheet and run the chosen picker; cancel and dismiss resolve null.
Returns the invocation events together with the resolution. -/
def showImagePickerActionSheet (env : NativeEnv) :
    List NEvent × Option ImagePickerResult :=
  match env.sheetChoice with
  | .cancel => ([.invokePicker .actionSheet], none)
  | .camera => ([.invokePicker .actionSheet, .invokePicker .camera], pickImageFromCamera env)
  | .gallery => ([.invokePicker .actionSheet, .invokePicker .gallery], pickImageFromGallery env)

/-! ## Message dispatch, current generation (NativeBridge WebViewContainer) -/

/-- handleMessage of the current-generation container, as the list of
observable events it produces for one parsed message.  The switch is on
`action || type`.  Branch notes, matching the source:
the pickImage helpers and checkPermission catch internally and never
reject, so the per-case catch clauses around them are unreachable;
getFcmToken is an external service whose rejection is caught per case;
the fire-and-forget cases (notifyLoginSuccess, notifyLogout, downloadFile,
openExternalLink, shareContent) never send a response, and an exception
inside them reaches only the top-level catch, which logs. -/
def handleMessage (m : BridgeMessage) (env : NativeEnv) : List NEvent :=
  let a := jsOr m.action m.type
  let rid := jsOr m.requestId none
  if a = some "pickImage" then
    match jsOr m.source none with
    | some src =>
      let result := pickImage src env
      [NEvent.invokePicker (if src = "camera" then .camera else .gallery)] ++
      (match rid with
       | some r => [.resp (mkResponse r result.isSome (result.map RespData.img))]
       | none => [.typed "pickImageResult" (result.map RespData.img)])
    | none =>
      match rid with
      | some r => [.resp (mkResponse r false none (some "source is required (camera or gallery)"))]
      | none => [.typed "pickImageResult" none]
  else if a = some "showImagePicker" then
    match rid with
    | some r => [.resp (mkResponse r true (some .useWebUI))]
    | none => [.typed "imagePickerResult" (some .useWebUI)]
  else if a = some "pickImageFromCamera" then
    let result := pickImageFromCamera env
    [NEvent.invokePicker .camera] ++
    (match rid with
     | some r => [.resp (mkResponse r result.isSome (result.map RespData.img))]
     | none => [.typed "cameraResult" (result.map RespData.img)])
  else if a = some "pickImageFromGallery" then
    let result := pickImageFromGallery env
    [NEvent.invokePicker .gallery] ++
    (match rid with
     | some r => [.resp (mkResponse r result.isSome (result.map RespData.img))]
     | none => [.typed "galleryResult" (result.map RespData.img)])
  else if a = some "checkPermission" then
    match m.data with
    | none => []
    | some d =>
      match jsOr d.permissionType d.type with
      | none => []
      | some permType =>
        let result := checkPermission permType env
        match rid with
        | some r => [.resp (mkResponse r true (some (.perm result)))]
        | none => [.typed "permissionResult" (some (.perm result))]
  else if a = some "getFcmToken" then
    match env.fcmTokenOutcome with
    | .ok token =>
      (match rid with
       | some r => [.resp (mkResponse r token.isSome (token.map RespData.token))]
       | none => [.typed "fcmTokenResult" (token.map RespData.token)])
    | .error e =>
      (match rid with
       | some r => [.resp (mkResponse r false none (some e))]
       | none => [])
  else if a = some "notifyLoginSuccess" then
    []
  else if a = some "notifyLogout" then
    []
  else if a = some "downloadFile" then
    match m.data with
    | some _ => [.ext "downloadFile"]
    | none => []
  else if a = some "openExternalLink" then
    match m.data with
    | some _ =>
      (match env.canOpenURL with
       | .error _ => []
       | .ok true => [.ext "openURL"]
       | .ok false => [])
    | none => []
  else if a = some "shareContent" then
    match m.data with
    | some _ => [.ext "shareShare"]
    | none => []
  else if a = some "shareKakao" then
    let valid := match m.data with
      | some d => (jsOr d.title none).isSome && (jsOr d.webUrl none).isSome
      | none => false
    if valid then
      match env.shareKakaoFeedOutcome with
      | .ok success =>
        [NEvent.ext "shareKakaoFeed"] ++
        (match rid with
         | some r => [.resp (mkResponse r success (some (.share success false)))]
         | none => [])
      | .error e =>
        [NEvent.ext "shareKakaoFeed"] ++
        (match env.shareShare with
         | .ok _ =>
           [NEvent.ext "shareShare"] ++
           (match rid with
            | some r => [.resp (mkResponse r true (some (.share true true)))]
            | none => [])
         | .error _ =>
           [NEvent.ext "shareShare"] ++
           (match rid with
            | some r => [.resp (mkResponse r false none (some e))]
            | none => []))
    else
      match rid with
      | some r => [.resp (mkResponse r false none (some "Invalid share data"))]
      | none => []
  else []

/-! ## Message dispatch, legacy generation (FlutterBridge WebViewContainer) -/

/-- handleMessage of the legacy container.  Differences from the current
generation: a sourceless pickImage presents the platform action sheet
instead of failing; showImagePicker presents the action sheet instead of
delegating to the web UI; there is no shareKakao case; notifyLoginSuccess
reads the access token from `data` only.  Responses go through
sendFlutterResponse, which builds the identical response object. -/
def legacyHandleMessage (m : BridgeMessage) (env : NativeEnv) : List NEvent :=
  let a := jsOr m.action m.type
  let rid := jsOr m.requestId none
  if a = some "pickImage" then
    match jsOr m.source none with
    | some src =>
      let result := pickImage src env
      [NEvent.invokePicker (if src = "camera" then .camera else .gallery)] ++
      (match rid with
       | some r => [.resp (mkResponse r result.isSome (result.map RespData.img))]
       | none => [.typed "pickImageResult" (result.map RespData.img)])
    | none =>
      let (evs, result) := showImagePickerActionSheet env
      evs ++
      (match rid with
       | some r => [.resp (mkResponse r result.isSome (result.map RespData.img))]
       | none => [.typed "pickImageResult" (result.map RespData.img)])
  else if a = some "showImagePicker" then
    let (evs, result) := showImagePickerActionSheet env
    evs ++
    (match rid with
     | some r => [.resp (mkResponse r result.isSome (result.map RespData.img))]
     | none => [.typed "imagePickerResult" (result.map RespData.img)])
  else if a = some "pickImageFromCamera" then
    let result := pickImageFromCamera env
    [NEvent.invokePicker .camera] ++
    (match rid with
     | some r => [.resp (mkResponse r result.isSome (result.map RespData.img))]
     | none => [.typed "cameraResult" (result.map RespData.img)])
  else if a = some "pickImageFromGallery" then
    let result := pickImageFromGallery env
    [NEvent.invokePicker .gallery] ++
    (match rid with
     | some r => [.resp (mkResponse r result.isSome (result.map RespData.img))]
     | none => [.typed "galleryResult" (result.map RespData.img)])
  else if a = some "checkPermission" then
    match m.data with
    | none => []
    | some d =>
      match jsOr d.permissionType d.type with
      | none => []
      | some permType =>
        let result := checkPermission permType env
        match rid with
        | some r => [.resp (mkResponse r true (some (.perm result)))]
        | none => [.typed "permissionResult" (some (.perm result))]
  else if a = some "getFcmToken" then
    match env.fcmTokenOutcome with
    | .ok token =>
      (match rid with
       | some r => [.resp (mkResponse r token.isSome (token.map RespData.token))]
       | none => [.typed "fcmTokenResult" (token.map RespData.token)])
    | .error e =>
      (match rid with
       | some r => [.resp (mkResponse r false none (some e))]
       | none => [])
  else if a = some "notifyLoginSuccess" then
    []
  else if a = some "notifyLogout" then
    []
  else if a = some "downloadFile" then
    match m.data with
    | some _ => [.ext "downloadFile"]
    | none => []
  else if a = some "openExternalLink" then
    match m.data with
    | some _ =>
      (match env.canOpenURL with
       | .error _ => []
       | .ok true => [.ext "openURL"]
       | .ok false => [])
    | none => []
  else if a = some "shareContent" then
    match m.data with
    | some _ => [.ext "shareShare"]
    | none => []
  else []

/-- Whether an event is a requestId-correlated response for the given
id. -/
def isRespFor (rid : String) : NEvent → Bool
  | .resp r => r.requestId == rid
  | _ => false

/-- Number of requestId-correlated responses for a given id in an event
list. -/
def respCount (rid : String) (evs : List NEvent) : Nat :=
  evs.countP (isRespFor rid)

/-- The actions for which the current-generation handler answers a
supplied requestId: the picker family, getFcmToken, shareKakao, and
checkPermission when the payload carries a permission type.  The case
chain mirrors the switch of handleMessage. -/
def respondsTo (m : BridgeMessage) : Bool :=
  let a := jsOr m.action m.type
  if a = some "pickImage" then true
  else if a = some "showImagePicker" then true
  else if a = some "pickImageFromCamera" then true
  else if a = some "pickImageFromGallery" then true
  else if a = some "checkPermission" then
    (match m.data with
     | some d => (jsOr d.permissionType d.type).isSome
     | none => false)
  else if a = some "getFcmToken" then true
  else if a = some "notifyLoginSuccess" then false
  else if a = some "notifyLogout" then false
  else if a = some "downloadFile" then false
  else if a = some "openExternalLink" then false
  else if a = some "shareContent" then false
  else if a = some "shareKakao" then true
  else false

/-! ## Theorems -/

/-- C2: when several semantic identifier parameters are present in a
deep-link URL, the resolved path follows the fixed precedence order
productId, eventId, programId, postId, reservationId — the first present
parameter wins, whatever the others are. -/
theorem deepLink_param_precedence (url p : String) (params : DeepLinkParams)
    (hurl : url ≠ "") (hp : p ≠ "") :
    (params.productId = some p →
      convertToWebViewPath url params = some ("/product/" ++ p)) ∧
    (params.productId = none → params.eventId = some p →
      convertToWebViewPath url params = some ("/event/" ++ p)) ∧
    (params.productId = none → params.eventId = none → params.programId = some p →
      convertToWebViewPath url params = some ("/program/" ++ p)) ∧
    (params.productId = none → params.eventId = none → params.programId = none →
      params.postId = some p →
      convertToWebViewPath url params = some ("/community/post/" ++ p)) ∧
    (params.productId = none → params.eventId = none → params.programId = none →
      params.postId = none → params.reservationId = some p →
      convertToWebViewPath url params = some ("/reservation-detail/" ++ p)) := by
  refine ⟨?_, ?_, ?_, ?_, ?_⟩
  · intro h1
    simp [convertToWebViewPath, hurl, h1, jsTruthy, hp]
  · intro h1 h2
    simp [convertToWebViewPath, hurl, h1, h2, jsTruthy, hp]
  · intro h1 h2 h3
    simp [convertToWebViewPath, hurl, h1, h2, h3, jsTruthy, hp]
  · intro h1 h2 h3 h4
    simp [convertToWebViewPath, hurl, h1, h2, h3, h4, jsTruthy, hp]
  · intro h1 h2 h3 h4 h5
    simp [convertToWebViewPath, hurl, h1, h2, h3, h4, h5, jsTruthy, hp]

/-- C2 witness: a URL containing both productId=5 and eventId=9 resolves
to /product/5. -/
theorem deepLink_param_precedence_witness :
    convertToWebViewPath "camter://home?productId=5&eventId=9"
      (parseUrlParams "camter://home?productId=5&eventId=9") = some "/product/5" :=
  (deepLink_param_precedence "camter://home?productId=5&eventId=9" "5"
    (parseUrlParams "camter://home?productId=5&eventId=9")
    (by decide) (by decide)).1 (by decide)

/-- C3: a supported URL not yet in the seen-set triggers a navigation
result exactly once — the first submission publishes a result, and
resubmitting the identical URL to the resulting state is a complete no-op
(state unchanged, nothing published). -/
theorem deepLink_dedup (s : DeepLinkState) (url : String)
    (hfresh : url ∉ s.processed) (hsup : isSupportedUrl url = true) :
    (processUrl s url).2 = true ∧
    processUrl (processUrl s url).1 url = ((processUrl s url).1, false) := by
  have hne : url ≠ "" := by
    rintro rfl
    exact absurd hsup (by decide)
  constructor
  · simp [processUrl, hne, hfresh, hsup]
  · simp [processUrl, hne, hfresh, hsup]

/-- C3 witness at a concrete supported URL and the empty initial state. -/
theorem deepLink_dedup_witness :
    (processUrl ⟨[], none⟩ "camter://home?productId=5").2 = true ∧
    processUrl (processUrl ⟨[], none⟩ "camter://home?productId=5").1
        "camter://home?productId=5" =
      ((processUrl ⟨[], none⟩ "camter://home?productId=5").1, false) :=
  deepLink_dedup ⟨[], none⟩ "camter://home?productId=5" (by decide) (by decide)

/-- C7 counterexample: submitting the unsupported URL foo://bar to the
empty state produces no navigation result, but the seen-set is NOT left
unchanged — processUrl inserts the URL before the scheme check, so the
rejected activation does add an entry. -/
theorem deepLink_unsupported_counterexample :
    (processUrl ⟨[], none⟩ "foo://bar").2 = false ∧
    (processUrl ⟨[], none⟩ "foo://bar").1.result = none ∧
    (processUrl ⟨[], none⟩ "foo://bar").1.processed = ["foo://bar"] := by
  decide

/-- C7 amended: a fresh URL with an unsupported scheme is ignored — no
navigation result is produced and the published result is unchanged — but
the URL is added to the seen-set of processed URLs (the seen-set check
precedes the scheme check in processUrl). -/
theorem deepLink_unsupported_ignored (s : DeepLinkState) (url : String)
    (hne : url ≠ "") (hfresh : url ∉ s.processed)
    (hunsup : isSupportedUrl url = false) :
    processUrl s url = ({ s with processed := url :: s.processed }, false) := by
  simp [processUrl, hne, hfresh, hunsup]

/-- C7 witness for the amended statement at the concrete URL foo://bar. -/
theorem deepLink_unsupported_ignored_witness :
    processUrl ⟨[], none⟩ "foo://bar" = (⟨["foo://bar"], none⟩, false) :=
  deepLink_unsupported_ignored ⟨[], none⟩ "foo://bar" (by decide) (by decide) (by decide)

/-- C4 counterexample: the URL camterapp://auth?code=ABC&state=XYZ does
NOT resolve to /oauth/callback?code=ABC&state=XYZ — because the remaining
path component "auth" is non-empty, the code keeps it, resolving to
auth?code=ABC&state=XYZ. -/
theorem oauth_callback_counterexample :
    convertToWebViewPath "camterapp://auth?code=ABC&state=XYZ"
      (parseUrlParams "camterapp://auth?code=ABC&state=XYZ") =
      some "auth?code=ABC&state=XYZ" ∧
    convertToWebViewPath "camterapp://auth?code=ABC&state=XYZ"
      (parseUrlParams "camterapp://auth?code=ABC&state=XYZ") ≠
      some "/oauth/callback?code=ABC&state=XYZ" := by
  decide

/-- C4 amended: when no semantic identifier is present and an OAuth code
parameter is, the resolver produces `basePath?code=...` (with `&state=...`
appended when state is present), where basePath is the URL path component
after scheme and host stripping; the default /oauth/callback prefix is
used only when that path component is empty. -/
theorem oauth_callback_resolution (url c : String) (params : DeepLinkParams)
    (hurl : url ≠ "") (hc : c ≠ "")
    (h1 : params.productId = none) (h2 : params.eventId = none)
    (h3 : params.programId = none) (h4 : params.postId = none)
    (h5 : params.reservationId = none) (hcode : params.code = some c) :
    convertToWebViewPath url params =
      some ((if extractBasePath url = "" then "/oauth/callback" else extractBasePath url) ++
        "?code=" ++ c ++
        (if jsTruthy params.state then "&state=" ++ params.state.getD "" else "")) := by
  simp [convertToWebViewPath, hurl, h1, h2, h3, h4, h5, hcode, jsTruthy, hc]

/-- C4 witness for the amended statement: with an empty path component the
default /oauth/callback prefix appears; with the path component auth the
resolved path keeps it. -/
theorem oauth_callback_resolution_witness :
    convertToWebViewPath "camterapp://?code=ABC&state=XYZ"
      (parseUrlParams "camterapp://?code=ABC&state=XYZ") =
      some "/oauth/callback?code=ABC&state=XYZ" ∧
    convertToWebViewPath "camterapp://auth?code=ABC&state=XYZ"
      (parseUrlParams "camterapp://auth?code=ABC&state=XYZ") =
      some "auth?code=ABC&state=XYZ" := by
  constructor
  · exact oauth_callback_resolution "camterapp://?code=ABC&state=XYZ" "ABC"
      (parseUrlParams "camterapp://?code=ABC&state=XYZ") (by decide) (by decide)
      (by decide) (by decide) (by decide) (by decide) (by decide) (by decide)
  · exact oauth_callback_resolution "camterapp://auth?code=ABC&state=XYZ" "ABC"
      (parseUrlParams "camterapp://auth?code=ABC&state=XYZ") (by decide) (by decide)
      (by decide) (by decide) (by decide) (by decide) (by decide) (by decide)

/-- flushQueue does not change the interactive flag. -/
theorem flushQueue_interactive (s : ContainerState) :
    (flushQueue s).interactive = s.interactive := by
  unfold flushQueue
  split <;> rfl

/-- flushQueue does not change the loaded flag. -/
theorem flushQueue_loaded (s : ContainerState) :
    (flushQueue s).loaded = s.loaded := by
  unfold flushQueue
  split <;> rfl

/-- C9: every container event handler preserves the invariant that an
interactive WebView is a loaded WebView — load start and backgrounding
clear interactive, and interactive is set only on load completion or on a
settle-timer check that confirms the loaded flag while the app is
active. -/
theorem container_interactive_implies_loaded (s : ContainerState) (e : CEvent)
    (h : s.interactive = true → s.loaded = true) :
    (cstep s e).interactive = true → (cstep s e).loaded = true := by
  cases e with
  | loadStart =>
    intro hx
    simp [cstep] at hx
  | loadEnd =>
    intro _
    simp only [cstep]
    split
    · rw [flushQueue_loaded]
    · rfl
  | appStateChange nextActive =>
    by_cases hn : nextActive = true
    · simpa [cstep, hn] using h
    · intro hx
      simp [cstep, hn] at hx
  | settleTimer =>
    simp only [cstep]
    split
    · rename_i hcond
      intro _
      rw [flushQueue_loaded]
      exact hcond.2
    · exact h
  | messageArrived => intro _; rfl
  | sendResponse r =>
    simp only [cstep]
    split
    · exact h
    · exact h

/-- C9 witness: the invariant is preserved by a concrete loadEnd step from
a concrete invariant-satisfying state whose result is interactive. -/
theorem container_interactive_implies_loaded_witness :
    (cstep ⟨true, true, true, true, [], []⟩ .loadEnd).loaded = true :=
  container_interactive_implies_loaded ⟨true, true, true, true, [], []⟩ .loadEnd
    (fun _ => rfl) (by decide)

/-- C5: responses sent while the container is not interactive are queued,
and when the container becomes interactive (via the foreground settle
timer with the WebView loaded, or via load completion in the active app
state) every queued script is injected in exact generation order after
the previously queued entries, leaving the queue empty. -/
theorem queue_fifo_three (s : ContainerState) (r1 r2 r3 : BridgeResponse)
    (hint : s.interactive = false) (href : s.refPresent = true)
    (hact : s.appStateActive = true) (hload : s.loaded = true) :
    ((cstep (cstep (cstep (cstep s (.sendResponse r1)) (.sendResponse r2))
        (.sendResponse r3)) .settleTimer).injected =
      s.injected ++ s.queue ++ [r1, r2, r3] ∧
     (cstep (cstep (cstep (cstep s (.sendResponse r1)) (.sendResponse r2))
        (.sendResponse r3)) .settleTimer).queue = []) ∧
    ((cstep (cstep (cstep (cstep s (.sendResponse r1)) (.sendResponse r2))
        (.sendResponse r3)) .loadEnd).injected =
      s.injected ++ s.queue ++ [r1, r2, r3] ∧
     (cstep (cstep (cstep (cstep s (.sendResponse r1)) (.sendResponse r2))
        (.sendResponse r3)) .loadEnd).queue = []) := by
  constructor
  · constructor
    · simp [cstep, flushQueue, hint, href, hact, hload]
    · simp [cstep, flushQueue, hint, href, hact, hload]
  · constructor
    · simp [cstep, flushQueue, hint, href, hact, hload]
    · simp [cstep, flushQueue, hint, href, hact, hload]

/-- C5 witness at a concrete non-interactive state and three concrete
responses. -/
theorem queue_fifo_three_witness :
    (cstep (cstep (cstep (cstep ⟨true, true, false, true, [], []⟩
        (.sendResponse ⟨"a", true, none, none⟩))
        (.sendResponse ⟨"b", true, none, none⟩))
        (.sendResponse ⟨"c", true, none, none⟩)) .settleTimer).injected =
      [⟨"a", true, none, none⟩, ⟨"b", true, none, none⟩, ⟨"c", true, none, none⟩] ∧
    (cstep (cstep (cstep (cstep ⟨true, true, false, true, [], []⟩
        (.sendResponse ⟨"a", true, none, none⟩))
        (.sendResponse ⟨"b", true, none, none⟩))
        (.sendResponse ⟨"c", true, none, none⟩)) .settleTimer).queue = [] :=
  (queue_fifo_three ⟨true, true, false, true, [], []⟩
    ⟨"a", true, none, none⟩ ⟨"b", true, none, none⟩ ⟨"c", true, none, none⟩
    rfl rfl rfl rfl).1

/-- C6 counterexample: an HTTP 500 error on an ordinary backend URL is
only logged to the console — the user-facing onError callback is never
invoked by handleHttpError, contradicting the claim that 5xx errors are
surfaced to the consumer. -/
theorem http_error_counterexample :
    (handleHttpError "https://dev.api.camter.co.kr/items" 500).surfaced = none ∧
    (handleHttpError "https://dev.api.camter.co.kr/items" 500).logged5xx = true := by
  decide

/-- C6 amended: transient payment-widget errors are filtered in both
handlers; for HTTP errors, 4xx codes are ignored and 5xx codes are logged
to the console only — handleHttpError never invokes the user-facing error
callback; generic load failures (outside the payment filter) are surfaced
to the consumer through the onError callback. -/
theorem webview_error_classification :
    (∀ url sc, (handleHttpError url sc).surfaced = none) ∧
    (∀ url sc,
      (containsStr url "ansimclick" || containsStr url "directLinkedOnlinePay") = true →
      (handleHttpError url sc).logged5xx = false) ∧
    (∀ url sc,
      (containsStr url "ansimclick" || containsStr url "directLinkedOnlinePay") = false →
      (containsStr url "/oauth2/" && containsStr url "/authorize") = false →
      ((handleHttpError url sc).logged5xx = true ↔ 500 ≤ sc)) ∧
    (∀ d,
      (containsStr d "ansimclick" || containsStr d "directLinkedOnlinePay") = true →
      handleError d = none) ∧
    (∀ d,
      (containsStr d "ansimclick" || containsStr d "directLinkedOnlinePay") = false →
      handleError d = some d) := by
  refine ⟨?_, ?_, ?_, ?_, ?_⟩
  · intro url sc
    unfold handleHttpError
    split
    · rfl
    · split <;> rfl
  · intro url sc hpay
    simp [handleHttpError, hpay]
  · intro url sc hpay hauth
    simp [handleHttpError, hpay, hauth]
  · intro d hpay
    simp [handleError, hpay]
  · intro d hpay
    simp [handleError, hpay]

/-- C6 witness for the amended statement at concrete URLs and
descriptions. -/
theorem webview_error_classification_witness :
    (handleHttpError "https://shop.example.com/cart" 503).surfaced = none ∧
    (handleHttpError "https://pay.example.com/ansimclick/step" 503).logged5xx = false ∧
    ((handleHttpError "https://shop.example.com/cart" 503).logged5xx = true ↔ 500 ≤ 503) ∧
    handleError "ansimclick window closed" = none ∧
    handleError "net::ERR_CONNECTION_REFUSED" = some "net::ERR_CONNECTION_REFUSED" :=
  ⟨webview_error_classification.1 "https://shop.example.com/cart" 503,
   webview_error_classification.2.1 "https://pay.example.com/ansimclick/step" 503 (by decide),
   webview_error_classification.2.2.1 "https://shop.example.com/cart" 503 (by decide) (by decide),
   webview_error_classification.2.2.2.1 "ansimclick window closed" (by decide),
   webview_error_classification.2.2.2.2 "net::ERR_CONNECTION_REFUSED" (by decide)⟩

/-- C10 counterexample: on Android, when initializeKakaoSDK succeeds but
the debug key-hash fetch throws, the call returns false while leaving the
initialized flag set — a failed call does not always leave the flag
false. -/
theorem kakao_init_counterexample :
    (initKakaoSDK false ⟨.ok (), .error "keyhash failed", true⟩).ret = false ∧
    (initKakaoSDK false ⟨.ok (), .error "keyhash failed", true⟩).flag = true := by
  decide

/-- C10 amended: once the flag is set, every call returns true immediately
without invoking the SDK initializer; a call where initializeKakaoSDK
itself throws leaves the flag false and returns false (so a later call
retries); a call where initialization succeeds sets the flag and returns
true, except that on Android a key-hash fetch failure after successful
initialization returns false while still leaving the flag set. -/
theorem kakao_init_flag_behavior (env : KakaoEnv) :
    (initKakaoSDK true env = ⟨true, true, false⟩) ∧
    (∀ e, env.initOutcome = .error e → initKakaoSDK false env = ⟨false, false, true⟩) ∧
    (env.initOutcome = .ok () → env.isAndroid = false →
      initKakaoSDK false env = ⟨true, true, true⟩) ∧
    (∀ k, env.initOutcome = .ok () → env.keyHashOutcome = .ok k →
      initKakaoSDK false env = ⟨true, true, true⟩) ∧
    (∀ e, env.initOutcome = .ok () → env.isAndroid = true →
      env.keyHashOutcome = .error e →
      initKakaoSDK false env = ⟨true, false, true⟩) := by
  refine ⟨rfl, ?_, ?_, ?_, ?_⟩
  · intro e he
    simp [initKakaoSDK, he]
  · intro hok hplat
    simp [initKakaoSDK, hok, hplat]
  · intro k hok hk
    by_cases hplat : env.isAndroid <;> simp [initKakaoSDK, hok, hk, hplat]
  · intro e hok hplat hk
    simp [initKakaoSDK, hok, hplat, hk]

/-- C10 witness for the amended statement at concrete environments. -/
theorem kakao_init_flag_behavior_witness :
    initKakaoSDK true ⟨.ok (), .ok "hash", true⟩ = ⟨true, true, false⟩ ∧
    initKakaoSDK false ⟨.error "boom", .ok "hash", true⟩ = ⟨false, false, true⟩ ∧
    initKakaoSDK false ⟨.ok (), .ok "hash", true⟩ = ⟨true, true, true⟩ ∧
    initKakaoSDK false ⟨.ok (), .error "bad", true⟩ = ⟨true, false, true⟩ :=
  ⟨(kakao_init_flag_behavior ⟨.ok (), .ok "hash", true⟩).1,
   (kakao_init_flag_behavior ⟨.error "boom", .ok "hash", true⟩).2.1 "boom" rfl,
   (kakao_init_flag_behavior ⟨.ok (), .ok "hash", true⟩).2.2.2.1 "hash" rfl rfl,
   (kakao_init_flag_behavior ⟨.ok (), .error "bad", true⟩).2.2.2.2 "bad" rfl rfl rfl⟩

/-- C8: a pickImage message without a source argument is answered by the
current-generation handler with a single success:false response whose
error reports that source is required, with no picker invoked; the legacy
handler instead presents the platform action sheet and answers with its
resolution.  The two generations exhibit exactly these two mutually
exclusive behaviours. -/
theorem pickImage_source_required (m : BridgeMessage) (env : NativeEnv) (rid : String)
    (ha : jsOr m.action m.type = some "pickImage")
    (hsrc : jsOr m.source none = none)
    (hrid : jsOr m.requestId none = some rid) :
    handleMessage m env =
      [.resp (mkResponse rid false none (some "source is required (camera or gallery)"))] ∧
    (∀ k, NEvent.invokePicker k ∉ handleMessage m env) ∧
    legacyHandleMessage m env =
      (showImagePickerActionSheet env).1 ++
        [.resp (mkResponse rid ((showImagePickerActionSheet env).2).isSome
          (((showImagePickerActionSheet env).2).map RespData.img))] ∧
    NEvent.invokePicker .actionSheet ∈ legacyHandleMessage m env := by
  have hsheet : NEvent.invokePicker PickerKind.actionSheet ∈ (showImagePickerActionSheet env).1 := by
    unfold showImagePickerActionSheet
    rcases env.sheetChoice <;> simp
  have hcur : handleMessage m env =
      [.resp (mkResponse rid false none (some "source is required (camera or gallery)"))] := by
    simp [handleMessage, ha, hsrc, hrid]
  have hleg : legacyHandleMessage m env =
      (showImagePickerActionSheet env).1 ++
        [.resp (mkResponse rid ((showImagePickerActionSheet env).2).isSome
          (((showImagePickerActionSheet env).2).map RespData.img))] := by
    simp [legacyHandleMessage, ha, hsrc, hrid]
  refine ⟨hcur, ?_, hleg, ?_⟩
  · intro k hk
    rw [hcur] at hk
    simp at hk
  · rw [hleg]
    exact List.mem_append_left _ hsheet

/-- C8 witness at a concrete sourceless pickImage message, for both
generations (the concrete action-sheet environment resolves to cancel, so
the legacy response is a failure with the default error string). -/
theorem pickImage_source_required_witness :
    handleMessage { action := some "pickImage", requestId := some "req" } {} =
      [.resp ⟨"req", false, none, some "source is required (camera or gallery)"⟩] ∧
    legacyHandleMessage { action := some "pickImage", requestId := some "req" } {} =
      [.invokePicker .actionSheet, .resp ⟨"req", false, none, some "Unknown error"⟩] := by
  have h := pickImage_source_required
    { action := some "pickImage", requestId := some "req" } {} "req"
    (by decide) (by decide) (by decide)
  exact ⟨h.1, h.2.2.1⟩

/-- Every response built by mkResponse echoes its requestId, and a failure
response always carries an error string. -/
theorem mkResponse_good (rid : String) (b : Bool) (d : Option RespData)
    (e : Option String) :
    (mkResponse rid b d e).requestId = rid ∧
    ((mkResponse rid b d e).success = false →
      (mkResponse rid b d e).error.isSome = true) := by
  refine ⟨rfl, ?_⟩
  intro hb
  have hb2 : b = false := hb
  subst hb2
  simp [mkResponse]

/-- C1 counterexample: a checkPermission message that carries a requestId
but no data payload receives zero responses from the current-generation
handler — a requestId-bearing message of a recognized action is left
unanswered, contradicting the exactly-one-response claim. -/
theorem bridge_reply_counterexample :
    ({ action := some "checkPermission", requestId := some "req-1" } : BridgeMessage).requestId
      = some "req-1" ∧
    respCount "req-1"
      (handleMessage { action := some "checkPermission", requestId := some "req-1" } {}) = 0 := by
  decide

/-- C1 amended: for a message carrying a requestId, the current-generation
handler emits exactly one response with that requestId when the action is
one that answers (the picker family, getFcmToken, shareKakao — whatever
the native outcomes, including thrown errors — and checkPermission when a
permission type is supplied), and zero responses otherwise (the
fire-and-forget actions, checkPermission without a usable payload, and
unrecognized actions); every emitted response echoes the requestId and a
failure response carries an error string; and the web-side pending table
removes an entry exactly once — a second response with the same requestId
is silently discarded. -/
theorem bridge_reply_discipline (m : BridgeMessage) (env : NativeEnv) (rid : String)
    (hrid : jsOr m.requestId none = some rid) :
    respCount rid (handleMessage m env) = (if respondsTo m then 1 else 0) ∧
    (∀ r, NEvent.resp r ∈ handleMessage m env →
      r.requestId = rid ∧ (r.success = false → r.error.isSome = true)) ∧
    (∀ (table : List String) (resp : BridgeResponse), table.Nodup →
      resp.requestId ∈ table →
      (handleFlutterResponse table resp).2 = some resp.success ∧
      resp.requestId ∉ (handleFlutterResponse table resp).1 ∧
      handleFlutterResponse (handleFlutterResponse table resp).1 resp =
        ((handleFlutterResponse table resp).1, none)) := by
  have tbl : ∀ (table : List String) (resp : BridgeResponse), table.Nodup →
      resp.requestId ∈ table →
      (handleFlutterResponse table resp).2 = some resp.success ∧
      resp.requestId ∉ (handleFlutterResponse table resp).1 ∧
      handleFlutterResponse (handleFlutterResponse table resp).1 resp =
        ((handleFlutterResponse table resp).1, none) := by
    intro table resp hnd hmem
    have h1 : handleFlutterResponse table resp =
        (table.erase resp.requestId, some resp.success) := by
      simp [handleFlutterResponse, hmem]
    have h2 : resp.requestId ∉ table.erase resp.requestId :=
      List.Nodup.not_mem_erase hnd
    refine ⟨by rw [h1], by rw [h1]; exact h2, ?_⟩
    rw [h1]
    simp [handleFlutterResponse, h2]
  have main : respCount rid (handleMessage m env) = (if respondsTo m then 1 else 0) ∧
      (∀ r, NEvent.resp r ∈ handleMessage m env →
        r.requestId = rid ∧ (r.success = false → r.error.isSome = true)) := by
    by_cases h1 : jsOr m.action m.type = some "pickImage"
    · rcases hs : jsOr m.source none with _ | src
      · refine ⟨by simp [handleMessage, respondsTo, hrid, h1, hs, respCount, isRespFor, mkResponse], ?_⟩
        intro r hr
        simp [handleMessage, hrid, h1, hs] at hr
        subst hr
        exact mkResponse_good rid _ _ _
      · refine ⟨by simp [handleMessage, respondsTo, hrid, h1, hs, respCount, isRespFor, mkResponse], ?_⟩
        intro r hr
        simp [handleMessage, hrid, h1, hs] at hr
        subst hr
        exact mkResponse_good rid _ _ _
    by_cases h2 : jsOr m.action m.type = some "showImagePicker"
    · refine ⟨by simp [handleMessage, respondsTo, hrid, h1, h2, respCount, isRespFor, mkResponse], ?_⟩
      intro r hr
      simp [handleMessage, hrid, h1, h2] at hr
      subst hr
      exact mkResponse_good rid _ _ _
    by_cases h3 : jsOr m.action m.type = some "pickImageFromCamera"
    · refine ⟨by simp [handleMessage, respondsTo, hrid, h1, h2, h3, respCount, isRespFor, mkResponse], ?_⟩
      intro r hr
      simp [handleMessage, hrid, h1, h2, h3] at hr
      subst hr
      exact mkResponse_good rid _ _ _
    by_cases h4 : jsOr m.action m.type = some "pickImageFromGallery"
    · refine ⟨by simp [handleMessage, respondsTo, hrid, h1, h2, h3, h4, respCount, isRespFor, mkResponse], ?_⟩
      intro r hr
      simp [handleMessage, hrid, h1, h2, h3, h4] at hr
      subst hr
      exact mkResponse_good rid _ _ _
    by_cases h5 : jsOr m.action m.type = some "checkPermission"
    · rcases hd : m.data with _ | d
      · refine ⟨by simp [handleMessage, respondsTo, hrid, h1, h2, h3, h4, h5, hd, respCount], ?_⟩
        intro r hr
        simp [handleMessage, hrid, h1, h2, h3, h4, h5, hd] at hr
      · rcases hp : jsOr d.permissionType d.type with _ | pt
        · refine ⟨by simp [handleMessage, respondsTo, hrid, h1, h2, h3, h4, h5, hd, hp, respCount], ?_⟩
          intro r hr
          simp [handleMessage, hrid, h1, h2, h3, h4, h5, hd, hp] at hr
        · refine ⟨by simp [handleMessage, respondsTo, hrid, h1, h2, h3, h4, h5, hd, hp, respCount, isRespFor, mkResponse], ?_⟩
          intro r hr
          simp [handleMessage, hrid, h1, h2, h3, h4, h5, hd, hp] at hr
          subst hr
          exact mkResponse_good rid _ _ _
    by_cases h6 : jsOr m.action m.type = some "getFcmToken"
    · rcases ht : env.fcmTokenOutcome with e | token
      · refine ⟨by simp [handleMessage, respondsTo, hrid, h1, h2, h3, h4, h5, h6, ht, respCount, isRespFor, mkResponse], ?_⟩
        intro r hr
        simp [handleMessage, hrid, h1, h2, h3, h4, h5, h6, ht] at hr
        subst hr
        exact mkResponse_good rid _ _ _
      · refine ⟨by simp [handleMessage, respondsTo, hrid, h1, h2, h3, h4, h5, h6, ht, respCount, isRespFor, mkResponse], ?_⟩
        intro r hr
        simp [handleMessage, hrid, h1, h2, h3, h4, h5, h6, ht] at hr
        subst hr
        exact mkResponse_good rid _ _ _
    by_cases h7 : jsOr m.action m.type = some "notifyLoginSuccess"
    · refine ⟨by simp [handleMessage, respondsTo, hrid, h1, h2, h3, h4, h5, h6, h7, respCount], ?_⟩
      intro r hr
      simp [handleMessage, hrid, h1, h2, h3, h4, h5, h6, h7] at hr
    by_cases h8 : jsOr m.action m.type = some "notifyLogout"
    · refine ⟨by simp [handleMessage, respondsTo, hrid, h1, h2, h3, h4, h5, h6, h7, h8, respCount], ?_⟩
      intro r hr
      simp [handleMessage, hrid, h1, h2, h3, h4, h5, h6, h7, h8] at hr
    by_cases h9 : jsOr m.action m.type = some "downloadFile"
    · rcases hd : m.data with _ | d
      · refine ⟨by simp [handleMessage, respondsTo, hrid, h1, h2, h3, h4, h5, h6, h7, h8, h9, hd, respCount], ?_⟩
        intro r hr
        simp [handleMessage, hrid, h1, h2, h3, h4, h5, h6, h7, h8, h9, hd] at hr
      · refine ⟨by simp [handleMessage, respondsTo, hrid, h1, h2, h3, h4, h5, h6, h7, h8, h9, hd, respCount, isRespFor], ?_⟩
        intro r hr
        simp [handleMessage, hrid, h1, h2, h3, h4, h5, h6, h7, h8, h9, hd] at hr
    by_cases h10 : jsOr m.action m.type = some "openExternalLink"
    · rcases hd : m.data with _ | d
      · refine ⟨by simp [handleMessage, respondsTo, hrid, h1, h2, h3, h4, h5, h6, h7, h8, h9, h10, hd, respCount], ?_⟩
        intro r hr
        simp [handleMessage, hrid, h1, h2, h3, h4, h5, h6, h7, h8, h9, h10, hd] at hr
      · rcases hc : env.canOpenURL with e | b
        · refine ⟨by simp [handleMessage, respondsTo, hrid, h1, h2, h3, h4, h5, h6, h7, h8, h9, h10, hd, hc, respCount], ?_⟩
          intro r hr
          simp [handleMessage, hrid, h1, h2, h3, h4, h5, h6, h7, h8, h9, h10, hd, hc] at hr
        · cases b
          · refine ⟨by simp [handleMessage, respondsTo, hrid, h1, h2, h3, h4, h5, h6, h7, h8, h9, h10, hd, hc, respCount], ?_⟩
            intro r hr
            simp [handleMessage, hrid, h1, h2, h3, h4, h5, h6, h7, h8, h9, h10, hd, hc] at hr
          · refine ⟨by simp [handleMessage, respondsTo, hrid, h1, h2, h3, h4, h5, h6, h7, h8, h9, h10, hd, hc, respCount, isRespFor], ?_⟩
            intro r hr
            simp [handleMessage, hrid, h1, h2, h3, h4, h5, h6, h7, h8, h9, h10, hd, hc] at hr
    by_cases h11 : jsOr m.action m.type = some "shareContent"
    · rcases hd : m.data with _ | d
      · refine ⟨by simp [handleMessage, respondsTo, hrid, h1, h2, h3, h4, h5, h6, h7, h8, h9, h10, h11, hd, respCount], ?_⟩
        intro r hr
        simp [handleMessage, hrid, h1, h2, h3, h4, h5, h6, h7, h8, h9, h10, h11, hd] at hr
      · refine ⟨by simp [handleMessage, respondsTo, hrid, h1, h2, h3, h4, h5, h6, h7, h8, h9, h10, h11, hd, respCount, isRespFor], ?_⟩
        intro r hr
        simp [handleMessage, hrid, h1, h2, h3, h4, h5, h6, h7, h8, h9, h10, h11, hd] at hr
    by_cases h12 : jsOr m.action m.type = some "shareKakao"
    · rcases hd : m.data with _ | d
      · refine ⟨by simp [handleMessage, respondsTo, hrid, h1, h2, h3, h4, h5, h6, h7, h8, h9, h10, h11, h12, hd, respCount, isRespFor, mkResponse], ?_⟩
        intro r hr
        simp [handleMessage, hrid, h1, h2, h3, h4, h5, h6, h7, h8, h9, h10, h11, h12, hd] at hr
        subst hr
        exact mkResponse_good rid _ _ _
      · by_cases hv : ((jsOr d.title none).isSome && (jsOr d.webUrl none).isSome) = true
        · rcases hk : env.shareKakaoFeedOutcome with e | success
          · rcases hsh : env.shareShare with e2 | u
            · refine ⟨by simp [handleMessage, respondsTo, hrid, h1, h2, h3, h4, h5, h6, h7, h8, h9, h10, h11, h12, hd, hv, hk, hsh, respCount, isRespFor, mkResponse], ?_⟩
              intro r hr
              simp [handleMessage, hrid, h1, h2, h3, h4, h5, h6, h7, h8, h9, h10, h11, h12, hd, hv, hk, hsh] at hr
              subst hr
              exact mkResponse_good rid _ _ _
            · refine ⟨by simp [handleMessage, respondsTo, hrid, h1, h2, h3, h4, h5, h6, h7, h8, h9, h10, h11, h12, hd, hv, hk, hsh, respCount, isRespFor, mkResponse], ?_⟩
              intro r hr
              simp [handleMessage, hrid, h1, h2, h3, h4, h5, h6, h7, h8, h9, h10, h11, h12, hd, hv, hk, hsh] at hr
              subst hr
              exact mkResponse_good rid _ _ _
          · refine ⟨by simp [handleMessage, respondsTo, hrid, h1, h2, h3, h4, h5, h6, h7, h8, h9, h10, h11, h12, hd, hv, hk, respCount, isRespFor, mkResponse], ?_⟩
            intro r hr
            simp [handleMessage, hrid, h1, h2, h3, h4, h5, h6, h7, h8, h9, h10, h11, h12, hd, hv, hk] at hr
            subst hr
            exact mkResponse_good rid _ _ _
        · refine ⟨by simp [handleMessage, respondsTo, hrid, h1, h2, h3, h4, h5, h6, h7, h8, h9, h10, h11, h12, hd, hv, respCount, isRespFor, mkResponse], ?_⟩
          intro r hr
          simp [handleMessage, hrid, h1, h2, h3, h4, h5, h6, h7, h8, h9, h10, h11, h12, hd, hv] at hr
          subst hr
          exact mkResponse_good rid _ _ _
    · refine ⟨by simp [handleMessage, respondsTo, hrid, h1, h2, h3, h4, h5, h6, h7, h8, h9, h10, h11, h12, respCount], ?_⟩
      intro r hr
      simp [handleMessage, hrid, h1, h2, h3, h4, h5, h6, h7, h8, h9, h10, h11, h12] at hr
  exact ⟨main.1, main.2, tbl⟩

/-- C1 witness for the amended statement: a getFcmToken request with a
requestId is answered exactly once, and the pending table for that id is
cleared exactly once. -/
theorem bridge_reply_discipline_witness :
    respCount "w1" (handleMessage { action := some "getFcmToken", requestId := some "w1" } {}) = 1 ∧
    (handleFlutterResponse ["w1"] ⟨"w1", true, none, none⟩).2 = some true ∧
    handleFlutterResponse (handleFlutterResponse ["w1"] ⟨"w1", true, none, none⟩).1
        ⟨"w1", true, none, none⟩ =
      ((handleFlutterResponse ["w1"] ⟨"w1", true, none, none⟩).1, none) := by
  have h := bridge_reply_discipline
    { action := some "getFcmToken", requestId := some "w1" } {} "w1" (by decide)
  have ht := h.2.2 ["w1"] ⟨"w1", true, none, none⟩ (by simp) (by simp)
  exact ⟨h.1, ht.1, ht.2.2⟩
